import Mathlib

/-!
Shallow embedding of `serverworkflowtool/setupenv.py`: the idempotent
task-sequencing engine of the server-workflow-tool repository.

Each setup step is modelled as a function from an explicit `ExternalState`
(the filesystem facts the steps inspect and mutate) to a `StepResult`
carrying the new state, the ordered list of observable effects the step
performed (file writes, external commands, HTTP requests, prompts, log
messages) and an `Outcome` (normal return, deliberate successful process
exit via `sys.exit(0)`, unhandled error, or a credential loop that has not
yet exited). User input and HTTP responses are passed in as explicit
scripted inputs, mirroring the closures of the Python source.
-/

namespace SetupEnv

/-- Association-list update: replace the binding of `k` in place, or append it. -/
def setKV : List (String × String) → String → String → List (String × String)
  | [], k, v => [(k, v)]
  | (k', v') :: rest, k, v =>
      if k' == k then (k, v) :: rest else (k', v') :: setKV rest k v

/-- Association-list removal of the binding of `k`. -/
def removeKV : List (String × String) → String → List (String × String)
  | [], _ => []
  | (k', v') :: rest, k =>
      if k' == k then rest else (k', v') :: removeKV rest k

/-- The filesystem / OS facts the steps consult: existing regular files
(path with contents), existing directories (path with owner), and whether
the `ninja` binary is on the PATH. -/
structure ExternalState where
  files : List (String × String)
  dirs : List (String × String)
  ninjaInstalled : Bool
deriving DecidableEq

/-- One observable interaction of a step with the outside world. -/
inductive Effect
  | fileWrite (path contents : String)
  | mkdirDir (path : String)
  | runCmd (cmd : String)
  | sudoCmd (cmd : String)
  | httpPost (url : String)
  | browserOpen (url : String)
  | promptUser (msg : String)
  | logInfo (msg : String)
  | logWarning (msg : String)
  | logError (msg : String)
  | resetJiraCredentials
deriving DecidableEq

/-- Effects that touch `ExternalState` or run something external: file
writes, directory creation, shell commands (plain or sudo) and HTTP
requests.  Prompts, browser opens and log messages are not state effects. -/
def Effect.isExternal : Effect → Bool
  | .fileWrite _ _ => true
  | .mkdirDir _ => true
  | .runCmd _ => true
  | .sudoCmd _ => true
  | .httpPost _ => true
  | _ => false

/-- `true` when no effect in the list is an external side effect. -/
def noExternalEffects (effs : List Effect) : Bool :=
  effs.all (fun e => !e.isExternal)

/-- How a step's invocation ends: normal return, deliberate successful
process exit (`sys.exit(0)`), unhandled error, or — for the credential
loop run against a finite response script — the script was exhausted with
the loop still waiting for a success (the loop never gives up). -/
inductive Outcome
  | ok
  | exitSuccess
  | error
  | stuck
deriving DecidableEq

/-- Result of invoking one step. -/
structure StepResult where
  state : ExternalState
  effects : List Effect
  outcome : Outcome
deriving DecidableEq

/-- A step did nothing external: its trace has no external side effect, it
left `ExternalState` unchanged, and it returned normally. -/
def cleanSkip (st : ExternalState) (r : StepResult) : Prop :=
  noExternalEffects r.effects = true ∧ r.state = st ∧ r.outcome = Outcome.ok

/-- Modelled from the spec: `config.HOME` (home directory constant from the
`config` module, which is outside the provided sources). -/
def HOME : String := "/home/user"

/-- Modelled from the spec: `config.USER` (current user name constant). -/
def USER : String := "user"

/-- Modelled from the spec: `config.EVG_CONFIG_FILE`, the durable
credential file `~/.evergreen.yml`. -/
def EVG_CONFIG_FILE : String := HOME ++ "/.evergreen.yml"

/-- Modelled from the spec: `config.SSH_KEY_FILE`, `~/.ssh/id_rsa`. -/
def SSH_KEY_FILE : String := HOME ++ "/.ssh/id_rsa"

/-- Modelled from the spec: `config.CONFIG_DIR`, the tool configuration
directory. -/
def CONFIG_DIR : String := HOME ++ "/.config/server-workflow-tool"

/-- Modelled from the spec: `config.REPO_ROOT`, where repositories are
cloned. -/
def REPO_ROOT : String := HOME ++ "/mongodb"

/-- Modelled from the spec: `config.GITHUB_SSH_HELP_URL`. -/
def GITHUB_SSH_HELP_URL : String := "https://help.github.com/articles/ssh"

/-- Modelled from the spec: `templates.evergreen_yaml_template`, a
fixed-format config rendered from the issued identity and token. -/
def evergreen_yaml_template (user api_key : String) : String :=
  "user: " ++ user ++ "\napi_key: " ++ api_key ++ "\n"

/-- Modelled from the spec: `templates.shell_profile_template`, fixed text. -/
def shell_profile_template : String :=
  "export PATH=$HOME/bin:$PATH\n"

def settings_url : String := "https://evergreen.mongodb.com/login/key"

def sshDir : String := HOME ++ "/.ssh"

def sshConfigFile : String := sshDir ++ "/config"

def sshConfigStanza : String := "Host github.com\n\tStrictHostKeyChecking no\n"

def binDir : String := HOME ++ "/bin"

def hooksDir : String := HOME ++ "/.githooks"

def kernelToolsDir : String := REPO_ROOT ++ "/kernel-tools"

def mongoDir : String := REPO_ROOT ++ "/mongo"

def python3VenvDir : String := mongoDir ++ "/python3-venv"

def profileFile : String := CONFIG_DIR ++ "/profile"

/-- A scripted response of the remote credential endpoint. -/
structure HttpResp where
  status : Nat
  user : String
  api_key : String
deriving DecidableEq

/-- The `while True` credential-exchange loop of `evergreen_yaml`, run
against a finite script of endpoint responses.  Each iteration posts the
credentials; a non-200 response logs the error, blocks on the retry
prompt, resets the held Jira credentials and loops; a 200 response renders
the template from the response's `user` and `api_key` fields, writes the
credential file and breaks.  An exhausted script leaves the loop `stuck`
(still retrying). -/
def evergreenLoop (st : ExternalState) : List HttpResp → StepResult
  | [] => ⟨st, [], Outcome.stuck⟩
  | r :: rest =>
      if r.status ≠ 200 then
        let rec' := evergreenLoop st rest
        ⟨rec'.state,
         Effect.httpPost settings_url ::
           Effect.logError "Failed to fetch API key from evergreen" ::
             Effect.promptUser "Press any key to retry..." ::
               Effect.resetJiraCredentials :: rec'.effects,
         rec'.outcome⟩
      else
        let evg_config := evergreen_yaml_template r.user r.api_key
        ⟨{ st with files := setKV st.files EVG_CONFIG_FILE evg_config },
         [Effect.httpPost settings_url,
          Effect.fileWrite EVG_CONFIG_FILE evg_config],
         Outcome.ok⟩

/-- `setupenv.evergreen_yaml`: skip (with two info messages) when the
credential file exists, otherwise run the credential-exchange loop. -/
def evergreen_yaml (responses : List HttpResp) (st : ExternalState) : StepResult :=
  if (st.files.lookup EVG_CONFIG_FILE).isSome then
    ⟨st,
     [Effect.logInfo "Found existing ~/.evergreen.yml, skipping adding Evergreen configuration",
      Effect.logInfo "Please ensure your ~/.evergreen.yml was generated by this tool. If not, make sure you know whats in there"],
     Outcome.ok⟩
  else
    evergreenLoop st responses

/-- `setupenv.ssh_keys`: ensure `~/.ssh` exists, skip when `~/.ssh/id_rsa`
is a file; otherwise overwrite `~/.ssh/config` with the
strict-host-key-checking stanza, prompt, and either exit successfully
(non-skip answer, after opening the browser and printing instructions) or
return normally (answer `skip`). -/
def ssh_keys (answer : String) (st : ExternalState) : StepResult :=
  let mk :=
    if (st.dirs.lookup sshDir).isSome then (st, ([] : List Effect))
    else ({ st with dirs := setKV st.dirs sshDir USER }, [Effect.mkdirDir sshDir])
  let st1 := mk.1
  if (st1.files.lookup SSH_KEY_FILE).isSome then
    ⟨st1,
     mk.2 ++
       [Effect.logInfo "Found existing key ~/.ssh/id_rsa, skipping setting up ssh keys",
        Effect.logInfo "Please ensure your keys are added to your GitHub account"],
     Outcome.ok⟩
  else
    let st2 := { st1 with files := setKV st1.files sshConfigFile sshConfigStanza }
    let e2 := mk.2 ++
      [Effect.logInfo "Did not find existing ssh key in ~/.ssh/id_rsa",
       Effect.logInfo ("Disabling host key checking for github.com in " ++ sshConfigFile),
       Effect.fileWrite sshConfigFile sshConfigStanza,
       Effect.promptUser "Opening browser for instructions to setting up ssh keys in GitHub, press any key to continue, enter skip to skip: "]
    if answer ≠ "skip" then
      ⟨st2,
       e2 ++
         [Effect.browserOpen GITHUB_SSH_HELP_URL,
          Effect.logInfo "Once you have generated SSH keys and added them to GitHub, please rerun workflow setup.macos"],
       Outcome.exitSuccess⟩
    else
      ⟨st2, e2 ++ [Effect.logInfo "Skipping adding SSH Keys to GitHub"], Outcome.ok⟩

/-- `setupenv.create_dir`: skip with a warning when the directory exists
and is owned by the current user; otherwise `sudo mkdir -p` and
`sudo chown` it. -/
def create_dir (dir_absolute : String) (st : ExternalState) : StepResult :=
  if st.dirs.lookup dir_absolute == some USER then
    ⟨st,
     [Effect.logWarning ("Directory " ++ dir_absolute ++ " exists and is owned by the current user, skipping creation")],
     Outcome.ok⟩
  else
    ⟨{ st with dirs := setKV st.dirs dir_absolute USER },
     [Effect.sudoCmd ("mkdir -p " ++ dir_absolute),
      Effect.sudoCmd ("chown " ++ USER ++ " " ++ dir_absolute),
      Effect.logInfo ("Created directory " ++ dir_absolute)],
     Outcome.ok⟩

/-- A repository to clone (from `config.REQUIRED_REPOS`). -/
structure RepoConfig where
  remote : String
  relative_local : String
deriving DecidableEq

/-- Modelled from the spec: `config.REQUIRED_REPOS`; the source refers to
the `mongo` and `kernel-tools` checkouts under `config.REPO_ROOT`. -/
def REQUIRED_REPOS : List RepoConfig :=
  [⟨"git@github.com:mongodb/mongo.git", "mongo"⟩,
   ⟨"git@github.com:10gen/kernel-tools.git", "kernel-tools"⟩]

/-- One iteration of the clone loop in `setupenv.clone_repos`. -/
def cloneOne (acc : ExternalState × List Effect) (rc : RepoConfig) :
    ExternalState × List Effect :=
  let repo_dir := REPO_ROOT ++ "/" ++ rc.relative_local
  if (acc.1.dirs.lookup repo_dir).isSome then
    (acc.1,
     acc.2 ++
       [Effect.logWarning ("Local directory " ++ repo_dir ++ " exists."),
        Effect.logWarning "If you would like to re-clone, please delete this directory first"])
  else
    let cmd := "git clone " ++ rc.remote ++ " " ++ repo_dir
    ({ acc.1 with dirs := setKV acc.1.dirs repo_dir USER },
     acc.2 ++ [Effect.logInfo cmd, Effect.runCmd cmd])

/-- `setupenv.clone_repos`: ensure `REPO_ROOT` exists, then clone each
required repository unless its directory already exists. -/
def clone_repos (st : ExternalState) : StepResult :=
  let mk :=
    if (st.dirs.lookup REPO_ROOT).isSome then (st, ([] : List Effect))
    else ({ st with dirs := setKV st.dirs REPO_ROOT USER }, [Effect.mkdirDir REPO_ROOT])
  let e1 := mk.2 ++ [Effect.logInfo ("Placing MongoDB Git repositories in " ++ REPO_ROOT)]
  let fin := REQUIRED_REPOS.foldl cloneOne (mk.1, e1)
  ⟨fin.1, fin.2, Outcome.ok⟩

/-- A download request (from `config.DownloadConfig`). -/
structure DownloadConfig where
  remote : String
  relative_local : String
deriving DecidableEq

/-- `setupenv._do_download`: warn when the local file exists, otherwise
`curl` it down. -/
def _do_download (dc : DownloadConfig) (st : ExternalState) :
    ExternalState × List Effect :=
  let local_path := HOME ++ "/" ++ dc.relative_local
  if (st.files.lookup local_path).isSome then
    (st,
     [Effect.logWarning ("File " ++ local_path ++ " exists. If you would like to re-download this file, please delete the local copy first.")])
  else
    let cmd := "curl -o " ++ dc.relative_local ++ " " ++ dc.remote
    ({ st with files := setKV st.files local_path "downloaded" },
     [Effect.logInfo cmd, Effect.runCmd cmd])

/-- `setupenv._download_executable_tarball`: skip when `bin/<pretty>`
exists; otherwise download the tarball, extract it, remove the tarball and
rename the extracted tree to `bin/<pretty>`. -/
def _download_executable_tarball (dc : DownloadConfig)
    (default_name pretty_name : String) (st : ExternalState) :
    ExternalState × List Effect :=
  if (st.files.lookup (binDir ++ "/" ++ pretty_name)).isSome then
    (st,
     [Effect.logWarning ("File/Directory " ++ binDir ++ "/" ++ pretty_name ++ " already exists. Skipping install")])
  else
    let dc2 := { dc with relative_local := "bin/" ++ pretty_name ++ ".tar.xz" }
    let dl := _do_download dc2 st
    let st2 :=
      { dl.1 with
        files :=
          setKV (removeKV dl.1.files (binDir ++ "/" ++ pretty_name ++ ".tar.xz"))
            (binDir ++ "/" ++ pretty_name) "installed" }
    (st2,
     dl.2 ++
       [Effect.runCmd ("tar -xvzf " ++ pretty_name ++ ".tar.xz"),
        Effect.runCmd ("rm -f " ++ pretty_name ++ ".tar.xz"),
        Effect.runCmd ("mv " ++ default_name ++ " " ++ pretty_name)])

/-- Modelled from the spec: `config.CLANG_FORMAT_URL`. -/
def CLANG_FORMAT_URL : String := "https://llvm.org/clang-format.tar.xz"

/-- Modelled from the spec: `config.ESLINT_URL`. -/
def ESLINT_URL : String := "https://eslint.org/eslint.tar.xz"

/-- `setupenv.download_clang_format`: skip when `bin/clang-format` exists;
otherwise install the llvm tarball and softlink `clang-format`. -/
def download_clang_format (st : ExternalState) : StepResult :=
  if (st.files.lookup (binDir ++ "/clang-format")).isSome then
    ⟨st,
     [Effect.logWarning ("File " ++ binDir ++ "/clang-format already exists. Skipping install")],
     Outcome.ok⟩
  else
    let tb := _download_executable_tarball ⟨CLANG_FORMAT_URL, ""⟩
      "clang+llvm-3.8.0-x86_64-apple-darwin" "llvm-3.8.0" st
    let cmd := "ln -s " ++ binDir ++ "/llvm-3.8.0/bin/clang-format clang-format"
    ⟨{ tb.1 with files := setKV tb.1.files (binDir ++ "/clang-format") "symlink" },
     tb.2 ++ [Effect.runCmd cmd],
     Outcome.ok⟩

/-- `setupenv.download_eslint`: install the eslint tarball (guarded inside
the tarball helper by `bin/eslint` existing). -/
def download_eslint (st : ExternalState) : StepResult :=
  let tb := _download_executable_tarball ⟨ESLINT_URL, ""⟩
    "eslint-Darwin-x86_64" "eslint" st
  ⟨tb.1, tb.2, Outcome.ok⟩

/-- `setupenv.download_evergreen`: download `bin/evergreen` unless it
exists, then always `chmod +x evergreen` (the source comments that chmod
is cheap enough to just always run). -/
def download_evergreen (st : ExternalState) : StepResult :=
  let dl :=
    if (st.files.lookup (binDir ++ "/evergreen")).isSome then
      (st,
       [Effect.logWarning ("File " ++ binDir ++ "/evergreen already exists. Skipping downloading evergreen CLI")])
    else
      _do_download ⟨"https://evergreen.mongodb.com/clients/darwin_amd64/evergreen", "bin/evergreen"⟩ st
  ⟨dl.1, dl.2 ++ [Effect.runCmd "chmod +x evergreen"], Outcome.ok⟩

/-- `setupenv.install_githooks`: ensure `~/.githooks` exists, symlink the
kernel-tools githooks unless present, then always run the repository's
install-hooks script and print follow-up instructions. -/
def install_githooks (st : ExternalState) : StepResult :=
  let mk :=
    if (st.dirs.lookup hooksDir).isSome then (st, ([] : List Effect))
    else ({ st with dirs := setKV st.dirs hooksDir USER }, [Effect.mkdirDir hooksDir])
  let ln :=
    if (mk.1.files.lookup (hooksDir ++ "/mongo")).isSome then (mk.1, ([] : List Effect))
    else
      ({ mk.1 with files := setKV mk.1.files (hooksDir ++ "/mongo") "symlink" },
       [Effect.runCmd ("ln -s " ++ kernelToolsDir ++ "/githooks " ++ hooksDir ++ "/mongo")])
  ⟨ln.1,
   mk.2 ++ ln.2 ++
     [Effect.runCmd "source buildscripts/install-hooks -f",
      Effect.logInfo "TODO: Please consult with your mentor on which githooks are needed. Some hooks may be",
      Effect.logInfo "unnecessarily cumbersome for your project. You can delete any unneeded hooks",
      Effect.logInfo ("in " ++ kernelToolsDir ++ "/githooks/pre-push and rerun workflow macos.setup")],
   Outcome.ok⟩

/-- The `run_cmds` helper of `setupenv.setup_mongo_repo_env`: run each
command and log it. -/
def run_cmds (cmds : List String) : List Effect :=
  cmds.flatMap (fun c => [Effect.runCmd c, Effect.logInfo ("Ran cmd: " ++ c)])

def sconsCmd : String :=
  "python buildscripts/scons.py CC=clang CXX=clang++ VARIANT_DIR=ninja MONGO_VERSION=0.0.0 MONGO_GIT_HASH=unknown --link-model=dynamic build.ninja"

/-- `setupenv.setup_mongo_repo_env`: create the Python3 virtualenv unless
it exists (warning otherwise), always run the pip installs (appending the
scons build.ninja generation when `build.ninja` is missing), and always
run `ninja compiledb`. -/
def setup_mongo_repo_env (st : ExternalState) : StepResult :=
  let venv :=
    if (st.dirs.lookup python3VenvDir).isSome then
      (st,
       [Effect.logWarning ("Found existing Python3 virtualenv at " ++ python3VenvDir ++ ", skipping creating a new one")])
    else
      ({ st with dirs := setKV st.dirs python3VenvDir USER },
       run_cmds ["python3 -m pip install virtualenv", "python3 -m virtualenv python3-venv"])
  let install_cmds :=
    ["pip install -r etc/pip/dev-requirements.txt", "pip install regex"] ++
      (if (venv.1.files.lookup (mongoDir ++ "/build.ninja")).isSome then [] else [sconsCmd])
  let st2 :=
    if (venv.1.files.lookup (mongoDir ++ "/build.ninja")).isSome then venv.1
    else { venv.1 with files := setKV venv.1.files (mongoDir ++ "/build.ninja") "ninja" }
  ⟨st2,
   venv.2 ++ run_cmds install_cmds ++ run_cmds ["ninja compiledb"],
   Outcome.ok⟩

/-- `setupenv.install_ninja`: probe with `ninja --version` (always run);
install via brew only when the probe fails. -/
def install_ninja (st : ExternalState) : StepResult :=
  if st.ninjaInstalled then
    ⟨st,
     [Effect.runCmd "ninja --version",
      Effect.logWarning "ninja appears to be already installed, skipping install"],
     Outcome.ok⟩
  else
    ⟨{ st with ninjaInstalled := true },
     [Effect.runCmd "ninja --version", Effect.runCmd "brew install ninja"],
     Outcome.ok⟩

/-- `setupenv.install_shell_profile`: unconditionally (no idempotence
guard) create the config dir and overwrite the profile file with the
template, then print instructions. -/
def install_shell_profile (st : ExternalState) : StepResult :=
  let mk :=
    if (st.dirs.lookup CONFIG_DIR).isSome then (st, ([] : List Effect))
    else ({ st with dirs := setKV st.dirs CONFIG_DIR USER }, [Effect.mkdirDir CONFIG_DIR])
  ⟨{ mk.1 with files := setKV mk.1.files profileFile shell_profile_template },
   mk.2 ++
     [Effect.fileWrite profileFile shell_profile_template,
      Effect.logInfo "TODO: Please add the following line to your shell config file, if you havent already done so",
      Effect.logInfo ("source " ++ profileFile)],
   Outcome.ok⟩

/-- `setupenv.post_task_instructions`: purely informational. -/
def post_task_instructions (st : ExternalState) : StepResult :=
  ⟨st, [Effect.logInfo "Note on Using compiledb: a Clang JSON Compilation Database has been generated for the mongo repository"], Outcome.ok⟩

/-- A unit of work of the orchestrator: a one-state-argument action plus a
human-readable label (the pairs of the `funcs` list in `setupenv.macos`). -/
structure Step where
  action : ExternalState → StepResult
  label : String

/-- Modelled from the spec: `utils.log.log_func`, the StepRunner — it logs
the step's label as starting, invokes the action, and logs completion; it
catches no exceptions, so the completion log happens only on a normal
return. -/
def runStep (s : Step) (st : ExternalState) : StepResult :=
  let r := s.action st
  ⟨r.state,
   Effect.logInfo ("Running task " ++ s.label) ::
     r.effects ++
       (match r.outcome with
        | Outcome.ok => [Effect.logInfo ("Finished task " ++ s.label)]
        | _ => []),
   r.outcome⟩

/-- Terminal state of an orchestrator run. -/
inductive RunState
  | finished
  | haltedForManualAction
  | aborted
  | blocked
deriving DecidableEq

/-- Result of running an ordered step list: final external state, the
concatenated effect trace, the terminal state, and how many steps were
invoked. -/
structure RunResult where
  state : ExternalState
  effects : List Effect
  runState : RunState
  executed : Nat
deriving DecidableEq

/-- The orchestrator loop (`for func in funcs: log_func(...)` in
`setupenv.macos`): run the steps in order; a normal return advances to the
next step, a deliberate `sys.exit(0)` halts for manual action, an
unhandled error aborts, and an exhausted credential script blocks. -/
def runSeq : List Step → ExternalState → RunResult
  | [], st => ⟨st, [], RunState.finished, 0⟩
  | s :: rest, st =>
      let r := runStep s st
      match r.outcome with
      | Outcome.ok =>
          let rr := runSeq rest r.state
          ⟨rr.state, r.effects ++ rr.effects, rr.runState, rr.executed + 1⟩
      | Outcome.exitSuccess => ⟨r.state, r.effects, RunState.haltedForManualAction, 1⟩
      | Outcome.error => ⟨r.state, r.effects, RunState.aborted, 1⟩
      | Outcome.stuck => ⟨r.state, r.effects, RunState.blocked, 1⟩

/-- Run every step of a list unconditionally, threading the state and
concatenating the effect traces (used to state what a halted run has and
has not done). -/
def foldSteps : List Step → ExternalState → ExternalState × List Effect
  | [], st => (st, [])
  | s :: rest, st =>
      let r := runStep s st
      let fin := foldSteps rest r.state
      (fin.1, r.effects ++ fin.2)

/-- The ordered step list of `setupenv.macos`, with the scripted user
answer for the ssh prompt and the scripted credential-endpoint responses
captured by the lambdas, as the Python closures capture `ctx` and `conf`. -/
def macosFuncs (answer : String) (responses : List HttpResp) : List Step :=
  [⟨fun st => ssh_keys answer st, "Configure SSH Keys"⟩,
   ⟨fun st => create_dir "/data" st, "Create MongoDB Data Directory"⟩,
   ⟨fun st => create_dir "/opt/mongodbtoolchain" st, "Create MongoDB Toolchain Directory"⟩,
   ⟨fun st => create_dir binDir st, "Create User bin Directory"⟩,
   ⟨fun st => evergreen_yaml responses st, "Configure Evergeen"⟩,
   ⟨clone_repos, "Clone MongoDB Repositories"⟩,
   ⟨download_clang_format, "Download clang-format"⟩,
   ⟨download_eslint, "Download eslint"⟩,
   ⟨download_evergreen, "Download evergreen CLI"⟩,
   ⟨install_ninja, "Install ninja"⟩,
   ⟨setup_mongo_repo_env, "Setup the mongo Repository"⟩,
   ⟨install_githooks, "Install Git Hooks"⟩,
   ⟨install_shell_profile, "Install Shell Profile"⟩,
   ⟨post_task_instructions, "Post Setup Instructions"⟩]

/-- The `setup.macos` entry point: run the ordered step list. -/
def macos (answer : String) (responses : List HttpResp) (st : ExternalState) : RunResult :=
  runSeq (macosFuncs answer responses) st

/-- A fresh workstation: nothing exists yet. -/
def st0 : ExternalState := ⟨[], [], false⟩

/-- A fully set-up workstation: every idempotence-guard predicate of the
step sequence holds. -/
def stFull : ExternalState :=
  { files :=
      [(EVG_CONFIG_FILE, evergreen_yaml_template "alice" "key123"),
       (SSH_KEY_FILE, "ssh-rsa AAAA"),
       (binDir ++ "/clang-format", "symlink"),
       (binDir ++ "/llvm-3.8.0", "installed"),
       (binDir ++ "/eslint", "installed"),
       (binDir ++ "/evergreen", "downloaded"),
       (hooksDir ++ "/mongo", "symlink"),
       (mongoDir ++ "/build.ninja", "ninja"),
       (profileFile, shell_profile_template)],
    dirs :=
      [(sshDir, USER),
       ("/data", USER),
       ("/opt/mongodbtoolchain", USER),
       (binDir, USER),
       (REPO_ROOT, USER),
       (REPO_ROOT ++ "/mongo", USER),
       (REPO_ROOT ++ "/kernel-tools", USER),
       (hooksDir, USER),
       (python3VenvDir, USER),
       (CONFIG_DIR, USER)],
    ninjaInstalled := true }

def isFileWrite : Effect → Bool
  | Effect.fileWrite _ _ => true
  | _ => false

def isPrompt : Effect → Bool
  | Effect.promptUser _ => true
  | _ => false

def isReset : Effect → Bool
  | Effect.resetJiraCredentials => true
  | _ => false

def isWarning : Effect → Bool
  | Effect.logWarning _ => true
  | _ => false

def isInfo : Effect → Bool
  | Effect.logInfo _ => true
  | _ => false

def countWrites (effs : List Effect) : Nat := (effs.filter isFileWrite).length

def countPrompts (effs : List Effect) : Nat := (effs.filter isPrompt).length

def countResets (effs : List Effect) : Nat := (effs.filter isReset).length

def hasWarning (effs : List Effect) : Bool := effs.any isWarning

def hasInfo (effs : List Effect) : Bool := effs.any isInfo

theorem lookup_setKV (m : List (String × String)) (k v : String) :
    (setKV m k v).lookup k = some v := by
  induction m with
  | nil => simp [setKV, List.lookup]
  | cons p rest ih =>
      obtain ⟨k', v'⟩ := p
      by_cases h : k' = k
      · simp [setKV, h, List.lookup]
      · have hb : (k' == k) = false := by simpa using h
        have hb' : (k == k') = false := by
          simpa using fun hkk => h hkk.symm
        simp [setKV, hb, List.lookup, hb', ih]

/-- C6: if the durable credential file already exists when the
`evergreen_yaml` step runs, the step skips the entire credential exchange:
it makes no request to the remote endpoint, never prompts the user, leaves
the existing credential file (and all of `ExternalState`) unchanged, and
returns successfully after instructing the user to verify the file. -/
theorem evergreen_yaml_skips_when_config_exists (responses : List HttpResp)
    (st : ExternalState) (h : (st.files.lookup EVG_CONFIG_FILE).isSome = true) :
    evergreen_yaml responses st =
      ⟨st,
       [Effect.logInfo "Found existing ~/.evergreen.yml, skipping adding Evergreen configuration",
        Effect.logInfo "Please ensure your ~/.evergreen.yml was generated by this tool. If not, make sure you know whats in there"],
       Outcome.ok⟩ := by
  simp [evergreen_yaml, h]

/-- Witness for C6 at the fully set-up state. -/
theorem evergreen_yaml_skips_when_config_exists_witness :
    evergreen_yaml [] stFull =
      ⟨stFull,
       [Effect.logInfo "Found existing ~/.evergreen.yml, skipping adding Evergreen configuration",
        Effect.logInfo "Please ensure your ~/.evergreen.yml was generated by this tool. If not, make sure you know whats in there"],
       Outcome.ok⟩ :=
  evergreen_yaml_skips_when_config_exists [] stFull (by decide)

/-- C9: `install_shell_profile` has no idempotence guard: on every
invocation, whatever the prior `ExternalState`, it writes the shell
profile template to the profile file, so the file holds exactly the
template afterwards (any pre-existing contents are lost), and it returns
normally. -/
theorem install_shell_profile_always_overwrites (st : ExternalState) :
    (install_shell_profile st).state.files.lookup profileFile = some shell_profile_template ∧
    Effect.fileWrite profileFile shell_profile_template ∈ (install_shell_profile st).effects ∧
    (install_shell_profile st).outcome = Outcome.ok := by
  by_cases h : (st.dirs.lookup CONFIG_DIR).isSome <;>
    simp [install_shell_profile, h, lookup_setKV]

/-- C1 fails as stated: at a state where every guard holds,
`download_evergreen` still runs `chmod +x evergreen`, `install_ninja`
still runs the `ninja --version` probe, and `setup_mongo_repo_env` still
runs the pip installs and `ninja compiledb`, so those guard-true
invocations are not free of external commands. -/
theorem idempotence_guard_counterexample :
    ((stFull.files.lookup (binDir ++ "/evergreen")).isSome = true ∧
      Effect.runCmd "chmod +x evergreen" ∈ (download_evergreen stFull).effects ∧
      noExternalEffects (download_evergreen stFull).effects = false) ∧
    (stFull.ninjaInstalled = true ∧
      Effect.runCmd "ninja --version" ∈ (install_ninja stFull).effects ∧
      noExternalEffects (install_ninja stFull).effects = false) ∧
    ((stFull.dirs.lookup python3VenvDir).isSome = true ∧
      Effect.runCmd "pip install regex" ∈ (setup_mongo_repo_env stFull).effects ∧
      Effect.runCmd "ninja compiledb" ∈ (setup_mongo_repo_env stFull).effects ∧
      noExternalEffects (setup_mongo_repo_env stFull).effects = false) := by
  decide

/-- C2 fails as stated: after a completed first run of the full sequence
from a fresh state (ssh prompt answered `skip`, credential endpoint
succeeding immediately), the second run still performs external side
effects (it rewrites the ssh config and the shell profile and re-runs
chmod, the ninja probe, the pip installs, `ninja compiledb` and the
install-hooks script). -/
theorem second_run_side_effects_counterexample :
    ((macos "skip" [⟨200, "alice", "key123"⟩]
        (macos "skip" [⟨200, "alice", "key123"⟩] st0).state).effects.any
      Effect.isExternal) = true := by
  decide

/-- C2 amended: the second run terminates in `Finished` and leaves
`ExternalState` exactly unchanged (every artifact it rewrites gets its
previous contents), but it does perform side effects. -/
theorem second_run_finishes_unchanged :
    (macos "skip" [⟨200, "alice", "key123"⟩] st0).runState = RunState.finished ∧
    (macos "skip" [⟨200, "alice", "key123"⟩]
        (macos "skip" [⟨200, "alice", "key123"⟩] st0).state).runState = RunState.finished ∧
    (macos "skip" [⟨200, "alice", "key123"⟩]
        (macos "skip" [⟨200, "alice", "key123"⟩] st0).state).state =
      (macos "skip" [⟨200, "alice", "key123"⟩] st0).state := by
  decide

/-- C8 fails as stated: the skip messages of `evergreen_yaml` (credential
file exists) and of `ssh_keys` (key file exists) are info-level, not
warning-level. -/
theorem skip_message_level_counterexample :
    ((stFull.files.lookup EVG_CONFIG_FILE).isSome = true ∧
      hasWarning (evergreen_yaml [] stFull).effects = false ∧
      hasInfo (evergreen_yaml [] stFull).effects = true) ∧
    ((stFull.files.lookup SSH_KEY_FILE).isSome = true ∧
      hasWarning (ssh_keys "skip" stFull).effects = false ∧
      hasInfo (ssh_keys "skip" stFull).effects = true) := by
  decide

/-- The amended per-step idempotence property: the steps whose guard-true
invocation is genuinely effect-free, plus the three steps that keep
running external commands even when their guard holds. -/
def guardedSkipSpec (st : ExternalState) (d answer : String)
    (responses : List HttpResp) : Prop :=
  cleanSkip st (evergreen_yaml responses st) ∧
  cleanSkip st (ssh_keys answer st) ∧
  cleanSkip st (create_dir d st) ∧
  cleanSkip st (clone_repos st) ∧
  cleanSkip st (download_clang_format st) ∧
  cleanSkip st (download_eslint st) ∧
  ((download_evergreen st).state = st ∧
    Effect.runCmd "chmod +x evergreen" ∈ (download_evergreen st).effects) ∧
  ((install_ninja st).state = st ∧
    Effect.runCmd "ninja --version" ∈ (install_ninja st).effects) ∧
  ((setup_mongo_repo_env st).state = st ∧
    Effect.runCmd "pip install regex" ∈ (setup_mongo_repo_env st).effects ∧
    Effect.runCmd "ninja compiledb" ∈ (setup_mongo_repo_env st).effects)

/-- C1 amended: when their idempotence guards hold, `evergreen_yaml`,
`ssh_keys`, `create_dir`, `clone_repos`, `download_clang_format` and
`download_eslint` perform zero external side effects, leave the state
unchanged and return without error; but `download_evergreen` still runs
`chmod +x evergreen`, `install_ninja` still runs the `ninja --version`
probe, and `setup_mongo_repo_env` still runs the pip installs and
`ninja compiledb` (all three leave the state unchanged). -/
theorem guarded_steps_skip (st : ExternalState) (d answer : String)
    (responses : List HttpResp)
    (h1 : (st.files.lookup EVG_CONFIG_FILE).isSome = true)
    (h2 : (st.dirs.lookup sshDir).isSome = true)
    (h3 : (st.files.lookup SSH_KEY_FILE).isSome = true)
    (h4 : (st.dirs.lookup d == some USER) = true)
    (h5 : (st.dirs.lookup REPO_ROOT).isSome = true)
    (h6 : (st.dirs.lookup (REPO_ROOT ++ "/" ++ "mongo")).isSome = true)
    (h7 : (st.dirs.lookup (REPO_ROOT ++ "/" ++ "kernel-tools")).isSome = true)
    (h8 : (st.files.lookup (binDir ++ "/clang-format")).isSome = true)
    (h9 : (st.files.lookup (binDir ++ "/" ++ "eslint")).isSome = true)
    (h10 : (st.files.lookup (binDir ++ "/evergreen")).isSome = true)
    (h11 : st.ninjaInstalled = true)
    (h12 : (st.dirs.lookup python3VenvDir).isSome = true)
    (h13 : (st.files.lookup (mongoDir ++ "/build.ninja")).isSome = true) :
    guardedSkipSpec st d answer responses := by
  refine ⟨?_, ?_, ?_, ?_, ?_, ?_, ?_, ?_, ?_⟩
  · simp [cleanSkip, evergreen_yaml, h1, noExternalEffects, Effect.isExternal]
  · simp [cleanSkip, ssh_keys, h2, h3, noExternalEffects, Effect.isExternal]
  · simp [cleanSkip, create_dir, h4, noExternalEffects, Effect.isExternal]
  · simp [cleanSkip, clone_repos, REQUIRED_REPOS, cloneOne, h5, h6, h7,
      noExternalEffects, Effect.isExternal]
  · simp [cleanSkip, download_clang_format, h8, noExternalEffects, Effect.isExternal]
  · simp [cleanSkip, download_eslint, _download_executable_tarball, h9,
      noExternalEffects, Effect.isExternal]
  · simp [download_evergreen, h10]
  · simp [install_ninja, h11]
  · simp [setup_mongo_repo_env, run_cmds, h12, h13]

/-- Witness for the amended C1 at the fully set-up state. -/
theorem guarded_steps_skip_witness : guardedSkipSpec stFull "/data" "skip" [] :=
  guarded_steps_skip stFull "/data" "skip" []
    (by decide) (by decide) (by decide) (by decide) (by decide) (by decide)
    (by decide) (by decide) (by decide) (by decide) (by decide) (by decide)
    (by decide)

/-- The amended skip-message-level property: which guarded steps warn and
which only print info-level messages when they skip. -/
def skipMessageSpec (st : ExternalState) (d answer : String)
    (responses : List HttpResp) : Prop :=
  hasWarning (create_dir d st).effects = true ∧
  hasWarning (clone_repos st).effects = true ∧
  hasWarning (download_clang_format st).effects = true ∧
  hasWarning (download_eslint st).effects = true ∧
  hasWarning (download_evergreen st).effects = true ∧
  hasWarning (install_ninja st).effects = true ∧
  hasWarning (setup_mongo_repo_env st).effects = true ∧
  (hasWarning (evergreen_yaml responses st).effects = false ∧
    hasInfo (evergreen_yaml responses st).effects = true) ∧
  (hasWarning (ssh_keys answer st).effects = false ∧
    hasInfo (ssh_keys answer st).effects = true)

/-- C8 amended: when their guards hold, `create_dir`, `clone_repos`, the
downloads, `install_ninja` and `setup_mongo_repo_env` emit a
warning-level skip message, while `evergreen_yaml` and `ssh_keys` emit
info-level skip messages only. -/
theorem skip_message_levels (st : ExternalState) (d answer : String)
    (responses : List HttpResp)
    (h1 : (st.files.lookup EVG_CONFIG_FILE).isSome = true)
    (h2 : (st.dirs.lookup sshDir).isSome = true)
    (h3 : (st.files.lookup SSH_KEY_FILE).isSome = true)
    (h4 : (st.dirs.lookup d == some USER) = true)
    (h5 : (st.dirs.lookup REPO_ROOT).isSome = true)
    (h6 : (st.dirs.lookup (REPO_ROOT ++ "/" ++ "mongo")).isSome = true)
    (h7 : (st.dirs.lookup (REPO_ROOT ++ "/" ++ "kernel-tools")).isSome = true)
    (h8 : (st.files.lookup (binDir ++ "/clang-format")).isSome = true)
    (h9 : (st.files.lookup (binDir ++ "/" ++ "eslint")).isSome = true)
    (h10 : (st.files.lookup (binDir ++ "/evergreen")).isSome = true)
    (h11 : st.ninjaInstalled = true)
    (h12 : (st.dirs.lookup python3VenvDir).isSome = true)
    (h13 : (st.files.lookup (mongoDir ++ "/build.ninja")).isSome = true) :
    skipMessageSpec st d answer responses := by
  refine ⟨?_, ?_, ?_, ?_, ?_, ?_, ?_, ?_, ?_⟩
  · simp [create_dir, h4, hasWarning, isWarning]
  · simp [clone_repos, REQUIRED_REPOS, cloneOne, h5, h6, h7, hasWarning, isWarning]
  · simp [download_clang_format, h8, hasWarning, isWarning]
  · simp [download_eslint, _download_executable_tarball, h9, hasWarning, isWarning]
  · simp [download_evergreen, h10, hasWarning, isWarning]
  · simp [install_ninja, h11, hasWarning, isWarning]
  · simp [setup_mongo_repo_env, run_cmds, h12, h13, hasWarning, isWarning]
  · simp [evergreen_yaml, h1, hasWarning, hasInfo, isWarning, isInfo]
  · simp [ssh_keys, h2, h3, hasWarning, hasInfo, isWarning, isInfo]

/-- Witness for the amended C8 at the fully set-up state. -/
theorem skip_message_levels_witness : skipMessageSpec stFull "/data" "skip" [] :=
  skip_message_levels stFull "/data" "skip" []
    (by decide) (by decide) (by decide) (by decide) (by decide) (by decide)
    (by decide) (by decide) (by decide) (by decide) (by decide) (by decide)
    (by decide)

/-- The four effects of one failed iteration of the credential loop. -/
def failIteration : List Effect :=
  [Effect.httpPost settings_url,
   Effect.logError "Failed to fetch API key from evergreen",
   Effect.promptUser "Press any key to retry...",
   Effect.resetJiraCredentials]

/-- The two effects of the final, successful iteration. -/
def successIteration (r : HttpResp) : List Effect :=
  [Effect.httpPost settings_url,
   Effect.fileWrite EVG_CONFIG_FILE (evergreen_yaml_template r.user r.api_key)]

theorem evergreenLoop_script (fails : List HttpResp) (succ : HttpResp)
    (rest : List HttpResp) (st : ExternalState)
    (hf : ∀ r ∈ fails, r.status ≠ 200) (hs : succ.status = 200) :
    evergreenLoop st (fails ++ succ :: rest) =
      ⟨{ st with
          files := setKV st.files EVG_CONFIG_FILE
            (evergreen_yaml_template succ.user succ.api_key) },
       fails.flatMap (fun _ => failIteration) ++ successIteration succ,
       Outcome.ok⟩ := by
  induction fails with
  | nil => simp [evergreenLoop, hs, successIteration]
  | cons r rs ih =>
      have hr : r.status ≠ 200 := hf r (by simp)
      have ih' := ih (fun x hx => hf x (by simp [hx]))
      simp [evergreenLoop, hr, ih', failIteration]

theorem evergreenLoop_outcome (rs : List HttpResp) (st : ExternalState) :
    (evergreenLoop st rs).outcome =
      (if rs.any (fun r => r.status == 200) then Outcome.ok else Outcome.stuck) ∧
    countWrites (evergreenLoop st rs).effects =
      (if rs.any (fun r => r.status == 200) then 1 else 0) := by
  induction rs generalizing st with
  | nil => simp [evergreenLoop, countWrites]
  | cons r rest ih =>
      by_cases h : r.status = 200
      · simp [evergreenLoop, h, countWrites, isFileWrite]
      · have hb : (r.status == 200) = false := by simpa using h
        have ih' := ih st
        constructor
        · simpa [evergreenLoop, h, hb] using ih'.1
        · simpa [evergreenLoop, h, hb, countWrites, isFileWrite] using ih'.2

theorem flatMap_const_filter_length {α : Type} (l : List α) (f : Effect → Bool)
    (block : List Effect) :
    ((l.flatMap (fun _ => block)).filter f).length =
      l.length * (block.filter f).length := by
  induction l with
  | nil => simp
  | cons x xs ih => simp [List.flatMap_cons, List.filter_append, ih, Nat.succ_mul, Nat.add_comm]

/-- C3: with the credential file absent and a scripted endpoint that fails
on the first N requests and succeeds on request N+1, the loop in
`evergreen_yaml` performs exactly N retries — the trace is N copies of
(request, error report, blocking retry prompt, credential reset) followed
by the final request and a single write of the credential file — and
terminates normally with the file holding the template rendered from the
`user` and `api_key` fields of the successful response. -/
theorem evergreen_yaml_retry_trace (fails : List HttpResp) (succ : HttpResp)
    (rest : List HttpResp) (st : ExternalState)
    (habs : (st.files.lookup EVG_CONFIG_FILE).isSome = false)
    (hf : ∀ r ∈ fails, r.status ≠ 200) (hs : succ.status = 200) :
    (evergreen_yaml (fails ++ succ :: rest) st).effects =
      fails.flatMap (fun _ => failIteration) ++ successIteration succ ∧
    countPrompts (evergreen_yaml (fails ++ succ :: rest) st).effects = fails.length ∧
    countResets (evergreen_yaml (fails ++ succ :: rest) st).effects = fails.length ∧
    countWrites (evergreen_yaml (fails ++ succ :: rest) st).effects = 1 ∧
    (evergreen_yaml (fails ++ succ :: rest) st).state.files.lookup EVG_CONFIG_FILE =
      some (evergreen_yaml_template succ.user succ.api_key) ∧
    (evergreen_yaml (fails ++ succ :: rest) st).outcome = Outcome.ok := by
  have hloop := evergreenLoop_script fails succ rest st hf hs
  have hyaml : evergreen_yaml (fails ++ succ :: rest) st = evergreenLoop st (fails ++ succ :: rest) := by
    simp [evergreen_yaml, habs]
  rw [hyaml, hloop]
  refine ⟨rfl, ?_, ?_, ?_, ?_, rfl⟩
  · simp [countPrompts, List.filter_append, flatMap_const_filter_length,
      failIteration, successIteration, isPrompt]
  · simp [countResets, List.filter_append, flatMap_const_filter_length,
      failIteration, successIteration, isReset]
  · simp [countWrites, List.filter_append, flatMap_const_filter_length,
      failIteration, successIteration, isFileWrite]
  · exact lookup_setKV st.files EVG_CONFIG_FILE (evergreen_yaml_template succ.user succ.api_key)

/-- Witness for C3 with N = 2 scripted failures before the success. -/
theorem evergreen_yaml_retry_trace_witness :
    (evergreen_yaml [⟨500, "", ""⟩, ⟨401, "", ""⟩, ⟨200, "alice", "key123"⟩] st0).effects =
      ([⟨500, "", ""⟩, ⟨401, "", ""⟩] : List HttpResp).flatMap (fun _ => failIteration) ++
        successIteration ⟨200, "alice", "key123"⟩ ∧
    countPrompts (evergreen_yaml [⟨500, "", ""⟩, ⟨401, "", ""⟩, ⟨200, "alice", "key123"⟩] st0).effects = 2 ∧
    countResets (evergreen_yaml [⟨500, "", ""⟩, ⟨401, "", ""⟩, ⟨200, "alice", "key123"⟩] st0).effects = 2 ∧
    countWrites (evergreen_yaml [⟨500, "", ""⟩, ⟨401, "", ""⟩, ⟨200, "alice", "key123"⟩] st0).effects = 1 ∧
    (evergreen_yaml [⟨500, "", ""⟩, ⟨401, "", ""⟩, ⟨200, "alice", "key123"⟩] st0).state.files.lookup EVG_CONFIG_FILE =
      some (evergreen_yaml_template "alice" "key123") ∧
    (evergreen_yaml [⟨500, "", ""⟩, ⟨401, "", ""⟩, ⟨200, "alice", "key123"⟩] st0).outcome = Outcome.ok :=
  evergreen_yaml_retry_trace [⟨500, "", ""⟩, ⟨401, "", ""⟩] ⟨200, "alice", "key123"⟩ [] st0
    (by decide) (by decide) (by decide)

/-- C7: with the credential file absent, the credential-exchange loop of
`evergreen_yaml` exits successfully exactly when some scripted response
has status 200; when every response is a failure it is still retrying
when the script runs out (`stuck`) — there is no bounded-retry or give-up
exit path — and it has written nothing. -/
theorem evergreen_yaml_success_only_exit (rs : List HttpResp) (st : ExternalState)
    (habs : (st.files.lookup EVG_CONFIG_FILE).isSome = false) :
    (evergreen_yaml rs st).outcome =
      (if rs.any (fun r => r.status == 200) then Outcome.ok else Outcome.stuck) ∧
    countWrites (evergreen_yaml rs st).effects =
      (if rs.any (fun r => r.status == 200) then 1 else 0) := by
  have h := evergreenLoop_outcome rs st
  simpa [evergreen_yaml, habs] using h

/-- Witness for C7 on an all-failure script. -/
theorem evergreen_yaml_success_only_exit_witness :
    (evergreen_yaml [⟨500, "", ""⟩, ⟨503, "", ""⟩] st0).outcome =
      (if [(⟨500, "", ""⟩ : HttpResp), ⟨503, "", ""⟩].any (fun r => r.status == 200) then Outcome.ok
       else Outcome.stuck) ∧
    countWrites (evergreen_yaml [⟨500, "", ""⟩, ⟨503, "", ""⟩] st0).effects =
      (if [(⟨500, "", ""⟩ : HttpResp), ⟨503, "", ""⟩].any (fun r => r.status == 200) then 1 else 0) :=
  evergreen_yaml_success_only_exit [⟨500, "", ""⟩, ⟨503, "", ""⟩] st0 (by decide)

/-- A do-nothing step, used as the default of `List.getD` when indexing a
step list. -/
def dummyStep : Step := ⟨fun st => ⟨st, [], Outcome.ok⟩, "dummy"⟩

/-- A test step whose action raises an unhandled error. -/
def failingStep : Step := ⟨fun st => ⟨st, [Effect.logError "boom"], Outcome.error⟩, "Failing Step"⟩

/-- C4: if, during a run of an ordered step list, steps `0..k-1` return
normally and step `k` raises an unhandled error, the orchestration halts
at step `k`: exactly `k + 1` steps were invoked (each of the first `k`
exactly once, none after `k`), the terminal state is `Aborted`, and the
final external state and effect trace are exactly those of the first
`k + 1` steps — earlier steps' effects are not rolled back. -/
theorem runSeq_halts_at_error (steps : List Step) (st : ExternalState) (k : Nat)
    (hk : k < steps.length)
    (hok : ∀ i, i < k →
      (runStep (steps.getD i dummyStep) (foldSteps (steps.take i) st).1).outcome = Outcome.ok)
    (herr : (runStep (steps.getD k dummyStep) (foldSteps (steps.take k) st).1).outcome = Outcome.error) :
    runSeq steps st =
      ⟨(foldSteps (steps.take (k + 1)) st).1, (foldSteps (steps.take (k + 1)) st).2,
       RunState.aborted, k + 1⟩ := by
  induction steps generalizing st k with
  | nil => exact absurd hk (by simp)
  | cons s rest ih =>
      cases k with
      | zero =>
          have h0 : (runStep s st).outcome = Outcome.error := by
            simpa [foldSteps] using herr
          simp [runSeq, h0, foldSteps]
      | succ k' =>
          have h0 : (runStep s st).outcome = Outcome.ok := by
            simpa [foldSteps] using hok 0 (Nat.succ_pos k')
          have hk' : k' < rest.length := Nat.lt_of_succ_lt_succ hk
          have hok' : ∀ i, i < k' →
              (runStep (rest.getD i dummyStep)
                (foldSteps (rest.take i) (runStep s st).state).1).outcome = Outcome.ok := by
            intro i hi
            have := hok (i + 1) (Nat.succ_lt_succ hi)
            simpa [foldSteps] using this
          have herr' :
              (runStep (rest.getD k' dummyStep)
                (foldSteps (rest.take k') (runStep s st).state).1).outcome = Outcome.error := by
            simpa [foldSteps] using herr
          have ihr := ih (runStep s st).state k' hk' hok' herr'
          simp [runSeq, h0, ihr, foldSteps]

/-- Witness for C4: a three-step list whose middle step errors halts after
invoking exactly two steps, in the `Aborted` state, keeping the first
step's effects. -/
theorem runSeq_halts_at_error_witness :
    runSeq [⟨fun st => create_dir "/data" st, "Create MongoDB Data Directory"⟩,
            failingStep,
            ⟨install_shell_profile, "Install Shell Profile"⟩] st0 =
      ⟨(foldSteps (([⟨fun st => create_dir "/data" st, "Create MongoDB Data Directory"⟩,
            failingStep,
            ⟨install_shell_profile, "Install Shell Profile"⟩] : List Step).take 2) st0).1,
       (foldSteps (([⟨fun st => create_dir "/data" st, "Create MongoDB Data Directory"⟩,
            failingStep,
            ⟨install_shell_profile, "Install Shell Profile"⟩] : List Step).take 2) st0).2,
       RunState.aborted, 2⟩ :=
  runSeq_halts_at_error
    [⟨fun st => create_dir "/data" st, "Create MongoDB Data Directory"⟩,
     failingStep,
     ⟨install_shell_profile, "Install Shell Profile"⟩] st0 1
    (by simp)
    (by intro i hi
        interval_cases i
        simp [runStep, foldSteps, create_dir, dummyStep, st0, List.lookup])
    (by simp [runStep, foldSteps, failingStep, create_dir, st0, List.lookup])

/-- C5: when the ssh key is absent and the operator does not answer
`skip`, the `ssh_keys` step (the first step of the sequence) requests a
deliberate successful process exit after printing the rerun instructions,
and the whole `macos` run halts for manual action having invoked exactly
that one step — no later step executes. -/
theorem ssh_manual_followup_halts (st : ExternalState) (answer : String)
    (responses : List HttpResp)
    (hkey : (st.files.lookup SSH_KEY_FILE).isSome = false)
    (hans : answer ≠ "skip") :
    (ssh_keys answer st).outcome = Outcome.exitSuccess ∧
    macos answer responses st =
      ⟨(ssh_keys answer st).state,
       Effect.logInfo "Running task Configure SSH Keys" :: (ssh_keys answer st).effects,
       RunState.haltedForManualAction, 1⟩ := by
  have hout : (ssh_keys answer st).outcome = Outcome.exitSuccess := by
    by_cases hd : (st.dirs.lookup sshDir).isSome <;>
      simp [ssh_keys, hd, hkey, hans]
  refine ⟨hout, ?_⟩
  simp [macos, macosFuncs, runSeq, runStep, hout]

/-- Witness for C5 on a fresh state with answer `continue`. -/
theorem ssh_manual_followup_halts_witness :
    (ssh_keys "continue" st0).outcome = Outcome.exitSuccess ∧
    macos "continue" [] st0 =
      ⟨(ssh_keys "continue" st0).state,
       Effect.logInfo "Running task Configure SSH Keys" :: (ssh_keys "continue" st0).effects,
       RunState.haltedForManualAction, 1⟩ :=
  ssh_manual_followup_halts st0 "continue" [] (by decide) (by decide)

/-- What `ssh_keys` does whenever the key file is absent: the ssh config
file ends up holding exactly the github stanza; the effect trace is the
(possible) ssh-dir creation, then the two info messages, then the config
write, then the prompt — so the write precedes the prompt and happens for
every answer — and then the answer-dependent tail; answering `skip`
returns normally and the enclosing run continues into the remaining
steps. -/
def sshWriteSpec (st : ExternalState) (answer lbl : String) (rest : List Step) : Prop :=
  (ssh_keys answer st).state.files.lookup sshConfigFile = some sshConfigStanza ∧
  (ssh_keys answer st).effects =
    (if (st.dirs.lookup sshDir).isSome then ([] : List Effect) else [Effect.mkdirDir sshDir]) ++
      [Effect.logInfo "Did not find existing ssh key in ~/.ssh/id_rsa",
       Effect.logInfo ("Disabling host key checking for github.com in " ++ sshConfigFile),
       Effect.fileWrite sshConfigFile sshConfigStanza,
       Effect.promptUser "Opening browser for instructions to setting up ssh keys in GitHub, press any key to continue, enter skip to skip: "] ++
      (if answer == "skip" then [Effect.logInfo "Skipping adding SSH Keys to GitHub"]
       else
         [Effect.browserOpen GITHUB_SSH_HELP_URL,
          Effect.logInfo "Once you have generated SSH keys and added them to GitHub, please rerun workflow setup.macos"]) ∧
  (ssh_keys "skip" st).outcome = Outcome.ok ∧
  runSeq (⟨fun s => ssh_keys "skip" s, lbl⟩ :: rest) st =
    ⟨(runSeq rest (ssh_keys "skip" st).state).state,
     (Effect.logInfo ("Running task " ++ lbl) ::
        (ssh_keys "skip" st).effects ++ [Effect.logInfo ("Finished task " ++ lbl)]) ++
       (runSeq rest (ssh_keys "skip" st).state).effects,
     (runSeq rest (ssh_keys "skip" st).state).runState,
     (runSeq rest (ssh_keys "skip" st).state).executed + 1⟩

/-- C10: whenever the ssh key file is absent, `ssh_keys` overwrites the
ssh config file with the stanza disabling strict host key checking for
github.com before prompting the operator and regardless of the answer;
answering `skip` makes the step return normally so the run continues to
the next step. -/
theorem ssh_keys_always_writes_config (st : ExternalState) (answer lbl : String)
    (rest : List Step)
    (hkey : (st.files.lookup SSH_KEY_FILE).isSome = false) :
    sshWriteSpec st answer lbl rest := by
  have hok : (ssh_keys "skip" st).outcome = Outcome.ok := by
    by_cases hd : (st.dirs.lookup sshDir).isSome <;> simp [ssh_keys, hd, hkey]
  refine ⟨?_, ?_, hok, ?_⟩
  · by_cases hd : (st.dirs.lookup sshDir).isSome <;>
      by_cases hans : answer = "skip" <;>
        simp [ssh_keys, hd, hkey, hans, lookup_setKV]
  · by_cases hd : (st.dirs.lookup sshDir).isSome <;>
      by_cases hans : answer = "skip" <;>
        simp [ssh_keys, hd, hkey, hans]
  · simp [runSeq, runStep, hok]

/-- Witness for C10 on a fresh state with a non-skip answer and one
following step. -/
theorem ssh_keys_always_writes_config_witness :
    sshWriteSpec st0 "go" "Configure SSH Keys"
      [⟨fun st => create_dir "/data" st, "Create MongoDB Data Directory"⟩] :=
  ssh_keys_always_writes_config st0 "go" "Configure SSH Keys"
    [⟨fun st => create_dir "/data" st, "Create MongoDB Data Directory"⟩] (by decide)

end SetupEnv
